import Mathlib

/-!
Shallow embedding of the astronomy core of this repository
(the coordinate-transform pipeline: Julian day, sidereal time,
Sun/Moon/planet ephemerides, equatorial-to-horizontal transform and
screen projection), together with theorems settling the frozen claims
about it.

JavaScript numbers are modelled as real numbers; `Math.sin`, `Math.cos`,
`Math.asin`, `Math.acos`, `Math.atan2`, `Math.sqrt`, `Math.min` become
`Real.sin`, `Real.cos`, `Real.arcsin`, `Real.arccos`, the complex
argument, `Real.sqrt` and `min`; the JavaScript remainder operator `%`
(truncated division remainder) is modelled by `jsMod`.
-/

namespace Astro

noncomputable section

open Real

/-- Source: `const toRad = (deg) => deg * Math.PI / 180`. -/
def toRad (deg : ℝ) : ℝ := deg * Real.pi / 180

/-- Source: `const toDeg = (rad) => rad * 180 / Math.PI`. -/
def toDeg (rad : ℝ) : ℝ := rad * 180 / Real.pi

/-- JavaScript `Math.atan2 y x`, modelled as the argument of the complex
number `x + y i`; both have range `(-π, π]` and send the origin to `0`. -/
def atan2 (y x : ℝ) : ℝ := Complex.arg (x + y * Complex.I)

/-- Truncation of a real number toward zero, as performed by the
JavaScript `%` operator on the quotient. -/
def truncate (x : ℝ) : ℤ := if 0 ≤ x then ⌊x⌋ else ⌈x⌉

/-- JavaScript remainder `x % y`: `x - y * trunc (x / y)`. -/
def jsMod (x y : ℝ) : ℝ := x - y * (truncate (x / y) : ℝ)

/-- The two fields of a JavaScript `Date` object the source reads:
`getTime` (milliseconds since the Unix epoch) and `getTimezoneOffset`
(the timestamp's associated UTC offset, in minutes). -/
structure JSDate where
  getTime : ℝ
  getTimezoneOffset : ℝ

/-- Observer coordinates, in degrees. -/
structure Coordinates where
  latitude : ℝ
  longitude : ℝ

/-- Equatorial coordinates: right ascension in hours, declination in
degrees. -/
structure RaDec where
  ra : ℝ
  dec : ℝ

/-- Horizon coordinates returned by `raDecToAzAlt`, in degrees. -/
structure AzAlt where
  azimuth : ℝ
  altitude : ℝ

/-- Viewport size in pixels. -/
structure Size where
  width : ℝ
  height : ℝ

/-- A point on the screen. -/
structure Pt where
  x : ℝ
  y : ℝ

/-- Result of `calculateObjectPosition`. -/
structure ScreenPosition where
  x : ℝ
  y : ℝ
  azimuth : ℝ
  altitude : ℝ
  visible : Bool

/-- Source: `getJulianDay(date) = date.getTime()/86400000 -
date.getTimezoneOffset()/1440 + 2440587.5`. -/
def getJulianDay (date : JSDate) : ℝ :=
  date.getTime / 86400000 - date.getTimezoneOffset / 1440 + 2440587.5

/-- Source: `getLocalSiderealTime`, returning hours. -/
def getLocalSiderealTime (date : JSDate) (coords : Coordinates) : ℝ :=
  let jd := getJulianDay date
  let d := jd - 2451545.0
  let GMST := 18.697374558 + 24.06570982441908 * d
  let LST_rad := toRad (GMST * 15 + coords.longitude)
  toDeg LST_rad / 15

/-- The hour angle of `raDecToAzAlt`:
`ha = toRad((lst - ra) * 15)`. -/
def hourAngle (ra lst : ℝ) : ℝ := toRad ((lst - ra) * 15)

/-- The sine of the hour angle, the branch condition of the azimuth
quadrant correction in `raDecToAzAlt`. -/
def sinHA (ra lst : ℝ) : ℝ := Real.sin (hourAngle ra lst)

/-- The value `sinAlt` computed in `raDecToAzAlt`:
`sin(dec)sin(lat) + cos(dec)cos(lat)cos(ha)`. -/
def sinAltOf (ra dec lst lat : ℝ) : ℝ :=
  Real.sin (toRad dec) * Real.sin (toRad lat) +
    Real.cos (toRad dec) * Real.cos (toRad lat) * Real.cos (hourAngle ra lst)

/-- The altitude computed in `raDecToAzAlt`: `toDeg(asin(sinAlt))`. -/
def altitudeOf (ra dec lst lat : ℝ) : ℝ :=
  toDeg (Real.arcsin (sinAltOf ra dec lst lat))

/-- The denominator of the azimuth formula in `raDecToAzAlt`:
`cos(lat) * cos(toRad(altitude))`. -/
def azDenom (ra dec lst lat : ℝ) : ℝ :=
  Real.cos (toRad lat) * Real.cos (toRad (altitudeOf ra dec lst lat))

/-- The argument `cosAz` fed to `acos` in `raDecToAzAlt`:
`(sin(dec) - sin(lat) * sinAlt) / (cos(lat) * cos(toRad(altitude)))`. -/
def azCosArg (ra dec lst lat : ℝ) : ℝ :=
  (Real.sin (toRad dec) - Real.sin (toRad lat) * sinAltOf ra dec lst lat) /
    azDenom ra dec lst lat

/-- The raw azimuth of `raDecToAzAlt` before the quadrant correction:
`toDeg(acos(cosAz))`. -/
def rawAcosAz (ra dec lst lat : ℝ) : ℝ :=
  toDeg (Real.arccos (azCosArg ra dec lst lat))

/-- Source: `raDecToAzAlt(ra, dec, lst, lat)`. The named helper
definitions above are exactly its intermediate values; the final branch
is the source's `if (Math.sin(ha) > 0) azimuth = 360 - azimuth`. -/
def raDecToAzAlt (ra dec lst lat : ℝ) : AzAlt :=
  if sinHA ra lst > 0 then
    ⟨360 - rawAcosAz ra dec lst lat, altitudeOf ra dec lst lat⟩
  else
    ⟨rawAcosAz ra dec lst lat, altitudeOf ra dec lst lat⟩

/-- Refinement of `raDecToAzAlt` that tracks IEEE-754 partiality: `none`
marks the inputs on which the JavaScript computation produces a NaN
azimuth or altitude, namely when `asin` or `acos` receives an argument
outside `[-1, 1]` or the azimuth denominator is zero (in IEEE arithmetic
`0/0` is NaN and `acos(±∞)` is NaN). On all other inputs it returns the
value of `raDecToAzAlt`. -/
def raDecToAzAltChecked (ra dec lst lat : ℝ) : Option AzAlt :=
  if |sinAltOf ra dec lst lat| ≤ 1 then
    if azDenom ra dec lst lat ≠ 0 then
      if |azCosArg ra dec lst lat| ≤ 1 then
        some (raDecToAzAlt ra dec lst lat)
      else none
    else none
  else none

/-- The repeated source idiom `if (ra < 0) ra += 24` applied to a right
ascension in hours. -/
def fixRa (ra : ℝ) : ℝ := if ra < 0 then ra + 24 else ra

/-- Source: `getSunPosition(date)`. -/
def getSunPosition (date : JSDate) : RaDec :=
  let jd := getJulianDay date
  let n := jd - 2451545.0
  let L := jsMod (280.460 + 0.9856474 * n) 360
  let g := toRad (jsMod (357.528 + 0.9856003 * n) 360)
  let lambda := toRad (L + 1.915 * Real.sin g + 0.020 * Real.sin (2 * g))
  let epsilon := toRad (23.439 - 0.0000004 * n)
  let raRad := atan2 (Real.cos epsilon * Real.sin lambda) (Real.cos lambda)
  let decRad := Real.arcsin (Real.sin epsilon * Real.sin lambda)
  ⟨fixRa (toDeg raRad / 15), toDeg decRad⟩

/-- Source: `getMoonPosition(date)`. -/
def getMoonPosition (date : JSDate) : RaDec :=
  let jd := getJulianDay date
  let d := jd - 2451545.0
  let l := toRad (jsMod (218.316 + 13.176396 * d) 360)
  let m := toRad (jsMod (134.963 + 13.064993 * d) 360)
  let f := toRad (jsMod (93.272 + 13.229350 * d) 360)
  let lon := l + toRad (6.289 * Real.sin m)
  let lat := toRad (5.128 * Real.sin f)
  let epsilon := toRad 23.4397
  let raRad := atan2
    (Real.sin lon * Real.cos epsilon - Real.tan lat * Real.sin epsilon)
    (Real.cos lon)
  let decRad := Real.arcsin
    (Real.sin lat * Real.cos epsilon +
      Real.cos lat * Real.sin epsilon * Real.sin lon)
  ⟨fixRa (toDeg raRad / 15), toDeg decRad⟩

/-- Orbital element set of a planet: six pairs
`(base value, linear rate per day)`. -/
structure Planet where
  semimajorAxis : ℝ × ℝ
  eccentricity : ℝ × ℝ
  inclination : ℝ × ℝ
  meanLongitude : ℝ × ℝ
  longitudeOfPerihelion : ℝ × ℝ
  longitudeOfAscendingNode : ℝ × ℝ

/-- The fixed-point iteration for Kepler's equation:
`keplerIterFrom M e E0 n` applies `E ↦ M + e * sin E` to `E0` exactly
`n` times; a `for` loop of `n` rounds of `E = M + e * Math.sin(E)`. -/
def keplerIterFrom (M e E0 : ℝ) : ℕ → ℝ
  | 0 => E0
  | n + 1 => M + e * Real.sin (keplerIterFrom M e E0 n)

/-- The map iterated by the Kepler solver. -/
def keplerMap (M e E : ℝ) : ℝ := M + e * Real.sin E

/-- Number of days since J2000.0: `d = jd - 2451545.0`, computed at the
top of every ephemeris function. -/
def daysSinceJ2000 (date : JSDate) : ℝ := getJulianDay date - 2451545.0

/-- The planet's mean anomaly as computed in `getPlanetPosition`:
`M = (L - w + 2π) % (2π)` with `L` and `w` evaluated at the date. -/
def planetMeanAnomaly (p : Planet) (date : JSDate) : ℝ :=
  let d := daysSinceJ2000 date
  let L := toRad (jsMod (p.meanLongitude.1 + p.meanLongitude.2 * d) 360)
  let w := toRad (p.longitudeOfPerihelion.1 + p.longitudeOfPerihelion.2 * d)
  jsMod (L - w + 2 * Real.pi) (2 * Real.pi)

/-- The planet's eccentricity evaluated at the date:
`e = e0 + edot * d`. -/
def planetEccentricity (p : Planet) (date : JSDate) : ℝ :=
  p.eccentricity.1 + p.eccentricity.2 * daysSinceJ2000 date

/-- The planet's eccentric anomaly as computed in `getPlanetPosition`:
`E = M`, then six rounds of `E = M + e * sin(E)`. -/
def planetEccentricAnomaly (p : Planet) (date : JSDate) : ℝ :=
  keplerIterFrom (planetMeanAnomaly p date) (planetEccentricity p date)
    (planetMeanAnomaly p date) 6

/-- Earth's mean anomaly as computed in `getPlanetPosition`:
`M_earth = toRad((357.52911 + 0.98560028 * d) % 360)`. -/
def earthMeanAnomaly (date : JSDate) : ℝ :=
  toRad (jsMod (357.52911 + 0.98560028 * daysSinceJ2000 date) 360)

/-- Earth's eccentricity as computed in `getPlanetPosition`:
`e_earth = 0.016708634 - 0.000042037 * d`. -/
def earthEccentricity (date : JSDate) : ℝ :=
  0.016708634 - 0.000042037 * daysSinceJ2000 date

/-- Earth's eccentric anomaly as computed in `getPlanetPosition`: the
initial value is `M_earth + e_earth * sin(M_earth)` (one application of
the Kepler map already), then five loop rounds of
`E_earth = M_earth + e_earth * sin(E_earth)`. -/
def earthEccentricAnomaly (date : JSDate) : ℝ :=
  keplerIterFrom (earthMeanAnomaly date) (earthEccentricity date)
    (earthMeanAnomaly date +
      earthEccentricity date * Real.sin (earthMeanAnomaly date)) 5

/-- The tail of `getPlanetPosition` once the two eccentric anomalies are
fixed: orbital-plane position, rotation into the ecliptic, subtraction
of Earth's heliocentric position, rotation by the obliquity, and
conversion to right ascension and declination. -/
def planetPositionFrom (p : Planet) (date : JSDate) (E E_earth : ℝ) : RaDec :=
  let d := daysSinceJ2000 date
  let a := p.semimajorAxis.1 + p.semimajorAxis.2 * d
  let e := planetEccentricity p date
  let i := toRad (p.inclination.1 + p.inclination.2 * d)
  let w := toRad (p.longitudeOfPerihelion.1 + p.longitudeOfPerihelion.2 * d)
  let N := toRad (p.longitudeOfAscendingNode.1 + p.longitudeOfAscendingNode.2 * d)
  let x_orb := a * (Real.cos E - e)
  let y_orb := a * Real.sqrt (1 - e * e) * Real.sin E
  let x_ecl := x_orb * (Real.cos w * Real.cos N - Real.sin w * Real.sin N * Real.cos i) -
    y_orb * (Real.sin w * Real.cos N + Real.cos w * Real.sin N * Real.cos i)
  let y_ecl := x_orb * (Real.cos w * Real.sin N + Real.sin w * Real.cos N * Real.cos i) +
    y_orb * (Real.cos w * Real.cos N * Real.cos i - Real.sin w * Real.sin N)
  let z_ecl := x_orb * (Real.sin w * Real.sin i) + y_orb * (Real.cos w * Real.sin i)
  let e_earth := earthEccentricity date
  let x_earth_helio := Real.cos E_earth - e_earth
  let y_earth_helio := Real.sqrt (1 - e_earth * e_earth) * Real.sin E_earth
  let x_geo_ecl := x_ecl - x_earth_helio
  let y_geo_ecl := y_ecl - y_earth_helio
  let z_geo_ecl := z_ecl
  let eclipticObliquity := toRad 23.4392911
  let x_geo_eq := x_geo_ecl
  let y_geo_eq := y_geo_ecl * Real.cos eclipticObliquity - z_geo_ecl * Real.sin eclipticObliquity
  let z_geo_eq := y_geo_ecl * Real.sin eclipticObliquity + z_geo_ecl * Real.cos eclipticObliquity
  let dec := toDeg (atan2 z_geo_eq (Real.sqrt (x_geo_eq * x_geo_eq + y_geo_eq * y_geo_eq)))
  ⟨fixRa (toDeg (atan2 y_geo_eq x_geo_eq) / 15), dec⟩

/-- Source: `getPlanetPosition(planet, date)`. The orbital elements are
evaluated via their linear rates; Kepler's equation is solved by the
fixed six-round iteration for the planet and by one initial application
plus five loop rounds for Earth, exactly as in the source. -/
def getPlanetPosition (p : Planet) (date : JSDate) : RaDec :=
  planetPositionFrom p date (planetEccentricAnomaly p date)
    (earthEccentricAnomaly date)

/-- Source: `projectToScreen(azimuth, altitude, size, rotation)`. -/
def projectToScreen (azimuth altitude : ℝ) (size : Size) (rotation : ℝ) : Pt :=
  let centerX := size.width / 2
  let centerY := size.height / 2
  let radius := min centerX centerY * 0.95
  let r := (1 - altitude / 90) * radius
  let theta := toRad (azimuth - 90 + rotation)
  ⟨centerX + r * Real.cos theta, centerY + r * Real.sin theta⟩

/-- Euclidean distance between two screen points. -/
def distPt (p q : Pt) : ℝ := Real.sqrt ((p.x - q.x) ^ 2 + (p.y - q.y) ^ 2)

/-- The body descriptors dispatched on by `calculateObjectPosition`: a
fixed star carrying its own `ra`/`dec` fields, a record whose `type`
field is `planet` carrying orbital elements, or any other `AstroObject`,
identified only by its `id` string (the Sun and the Moon among them). -/
inductive CelestialBody where
  | star (ra dec : ℝ)
  | planet (p : Planet)
  | object (id : String)

/-- The equatorial-coordinate resolution step of
`calculateObjectPosition`: star fields are used directly, a planet goes
through `getPlanetPosition`, the ids `sun` and `moon` go through their
ephemerides, and anything else falls back to `ra = 0, dec = 0`. -/
def resolveRaDec (obj : CelestialBody) (date : JSDate) : RaDec :=
  match obj with
  | .star ra dec => ⟨ra, dec⟩
  | .planet p => getPlanetPosition p date
  | .object id =>
    if id = "sun" then getSunPosition date
    else if id = "moon" then getMoonPosition date
    else ⟨0, 0⟩

/-- Source: `calculateObjectPosition(obj, date, coords, screenSize,
rotation)`: resolve equatorial coordinates, chain sidereal time,
horizontal transform and screen projection, and set
`visible = altitude >= 0`. -/
def calculateObjectPosition (obj : CelestialBody) (date : JSDate)
    (coords : Coordinates) (screenSize : Size) (rotation : ℝ) : ScreenPosition :=
  let rd := resolveRaDec obj date
  let lst := getLocalSiderealTime date coords
  let azAlt := raDecToAzAlt rd.ra rd.dec lst coords.latitude
  let pt := projectToScreen azAlt.azimuth azAlt.altitude screenSize rotation
  ⟨pt.x, pt.y, azAlt.azimuth, azAlt.altitude, decide (azAlt.altitude ≥ 0)⟩

/-- The body of `getLocalSiderealTime` as a function of the day count
`d = JD - 2451545.0` alone, used to state that the sidereal clock
depends on the date only through that epoch. -/
def lstFromDays (d longitude : ℝ) : ℝ :=
  toDeg (toRad ((18.697374558 + 24.06570982441908 * d) * 15 + longitude)) / 15

/-- The body of `getSunPosition` as a function of the day count
`n = JD - 2451545.0` alone. -/
def sunFromDays (n : ℝ) : RaDec :=
  let L := jsMod (280.460 + 0.9856474 * n) 360
  let g := toRad (jsMod (357.528 + 0.9856003 * n) 360)
  let lambda := toRad (L + 1.915 * Real.sin g + 0.020 * Real.sin (2 * g))
  let epsilon := toRad (23.439 - 0.0000004 * n)
  let raRad := atan2 (Real.cos epsilon * Real.sin lambda) (Real.cos lambda)
  let decRad := Real.arcsin (Real.sin epsilon * Real.sin lambda)
  ⟨fixRa (toDeg raRad / 15), toDeg decRad⟩

/-- The body of `getMoonPosition` as a function of the day count
`d = JD - 2451545.0` alone. -/
def moonFromDays (d : ℝ) : RaDec :=
  let l := toRad (jsMod (218.316 + 13.176396 * d) 360)
  let m := toRad (jsMod (134.963 + 13.064993 * d) 360)
  let f := toRad (jsMod (93.272 + 13.229350 * d) 360)
  let lon := l + toRad (6.289 * Real.sin m)
  let lat := toRad (5.128 * Real.sin f)
  let epsilon := toRad 23.4397
  let raRad := atan2
    (Real.sin lon * Real.cos epsilon - Real.tan lat * Real.sin epsilon)
    (Real.cos lon)
  let decRad := Real.arcsin
    (Real.sin lat * Real.cos epsilon +
      Real.cos lat * Real.sin epsilon * Real.sin lon)
  ⟨fixRa (toDeg raRad / 15), toDeg decRad⟩

/-- The body of `getPlanetPosition` as a function of the orbital
elements and the day count `d = JD - 2451545.0` alone. -/
def planetFromDays (p : Planet) (d : ℝ) : RaDec :=
  let a := p.semimajorAxis.1 + p.semimajorAxis.2 * d
  let e := p.eccentricity.1 + p.eccentricity.2 * d
  let i := toRad (p.inclination.1 + p.inclination.2 * d)
  let L := toRad (jsMod (p.meanLongitude.1 + p.meanLongitude.2 * d) 360)
  let w := toRad (p.longitudeOfPerihelion.1 + p.longitudeOfPerihelion.2 * d)
  let N := toRad (p.longitudeOfAscendingNode.1 + p.longitudeOfAscendingNode.2 * d)
  let M := jsMod (L - w + 2 * Real.pi) (2 * Real.pi)
  let E := keplerIterFrom M e M 6
  let x_orb := a * (Real.cos E - e)
  let y_orb := a * Real.sqrt (1 - e * e) * Real.sin E
  let x_ecl := x_orb * (Real.cos w * Real.cos N - Real.sin w * Real.sin N * Real.cos i) -
    y_orb * (Real.sin w * Real.cos N + Real.cos w * Real.sin N * Real.cos i)
  let y_ecl := x_orb * (Real.cos w * Real.sin N + Real.sin w * Real.cos N * Real.cos i) +
    y_orb * (Real.cos w * Real.cos N * Real.cos i - Real.sin w * Real.sin N)
  let z_ecl := x_orb * (Real.sin w * Real.sin i) + y_orb * (Real.cos w * Real.sin i)
  let M_earth := toRad (jsMod (357.52911 + 0.98560028 * d) 360)
  let e_earth := 0.016708634 - 0.000042037 * d
  let E_earth := keplerIterFrom M_earth e_earth
    (M_earth + e_earth * Real.sin M_earth) 5
  let x_earth_helio := Real.cos E_earth - e_earth
  let y_earth_helio := Real.sqrt (1 - e_earth * e_earth) * Real.sin E_earth
  let x_geo_ecl := x_ecl - x_earth_helio
  let y_geo_ecl := y_ecl - y_earth_helio
  let z_geo_ecl := z_ecl
  let eclipticObliquity := toRad 23.4392911
  let x_geo_eq := x_geo_ecl
  let y_geo_eq := y_geo_ecl * Real.cos eclipticObliquity - z_geo_ecl * Real.sin eclipticObliquity
  let z_geo_eq := y_geo_ecl * Real.sin eclipticObliquity + z_geo_ecl * Real.cos eclipticObliquity
  let dec := toDeg (atan2 z_geo_eq (Real.sqrt (x_geo_eq * x_geo_eq + y_geo_eq * y_geo_eq)))
  ⟨fixRa (toDeg (atan2 y_geo_eq x_geo_eq) / 15), dec⟩

/-! ### Basic facts about the unit-conversion helpers -/

theorem toDeg_toRad (x : ℝ) : toDeg (toRad x) = x := by
  unfold toDeg toRad
  field_simp

theorem toRad_toDeg (x : ℝ) : toRad (toDeg x) = x := by
  unfold toDeg toRad
  field_simp

theorem toRad_zero : toRad 0 = 0 := by
  unfold toRad
  ring

theorem toDeg_zero : toDeg 0 = 0 := by
  unfold toDeg
  ring

theorem toRad_ninety : toRad 90 = Real.pi / 2 := by
  unfold toRad
  ring

theorem toDeg_nonneg {x : ℝ} (hx : 0 ≤ x) : 0 ≤ toDeg x := by
  unfold toDeg
  positivity

theorem toDeg_le {x b : ℝ} (hx : x ≤ Real.pi / 2 * (b / 90)) : toDeg x ≤ b := by
  unfold toDeg
  rw [div_le_iff₀ Real.pi_pos]
  nlinarith [Real.pi_pos, hx]

theorem le_toDeg {x b : ℝ} (hx : Real.pi / 2 * (b / 90) ≤ x) : b ≤ toDeg x := by
  unfold toDeg
  rw [le_div_iff₀ Real.pi_pos]
  nlinarith [Real.pi_pos, hx]

/-- Bounds for `fixRa (toDeg θ / 15)` when `θ` is an angle in the range
of `atan2`, i.e. `θ ∈ (-π, π]`: the result is in `[0, 24)`. -/
theorem fixRa_mem {θ : ℝ} (h1 : -Real.pi < θ) (h2 : θ ≤ Real.pi) :
    0 ≤ fixRa (toDeg θ / 15) ∧ fixRa (toDeg θ / 15) < 24 := by
  have hπ := Real.pi_pos
  have hub : toDeg θ / 15 ≤ 12 := by
    unfold toDeg
    rw [div_le_iff₀ (by norm_num : (0:ℝ) < 15), div_le_iff₀ hπ]
    nlinarith
  have hlb : -12 < toDeg θ / 15 := by
    unfold toDeg
    rw [lt_div_iff₀ (by norm_num : (0:ℝ) < 15), lt_div_iff₀ hπ]
    nlinarith
  unfold fixRa
  constructor
  · split
    · linarith
    · linarith [not_lt.mp (by assumption : ¬ toDeg θ / 15 < 0)]
  · split
    · linarith
    · linarith

theorem atan2_mem_Ioc (y x : ℝ) :
    -Real.pi < atan2 y x ∧ atan2 y x ≤ Real.pi := by
  have h := Complex.arg_mem_Ioc (x + y * Complex.I)
  exact ⟨h.1, h.2⟩

theorem abs_atan2_le_pi_div_two {y x : ℝ} (hx : 0 ≤ x) :
    |atan2 y x| ≤ Real.pi / 2 := by
  unfold atan2
  rw [Complex.abs_arg_le_pi_div_two_iff]
  simpa using hx

/-- Declination bound: `toDeg` of an angle in `[-π/2, π/2]` lies in
`[-90, 90]`. -/
theorem toDeg_mem_of_abs_le {x : ℝ} (h : |x| ≤ Real.pi / 2) :
    -90 ≤ toDeg x ∧ toDeg x ≤ 90 := by
  obtain ⟨h1, h2⟩ := abs_le.mp h
  constructor
  · exact le_toDeg (by linarith [show Real.pi / 2 * ((-90:ℝ) / 90) = -(Real.pi / 2) by ring])
  · exact toDeg_le (by linarith [show Real.pi / 2 * ((90:ℝ) / 90) = Real.pi / 2 by ring])

theorem arcsin_abs_le (s : ℝ) : |Real.arcsin s| ≤ Real.pi / 2 := by
  rw [abs_le]
  exact ⟨Real.neg_pi_div_two_le_arcsin s, Real.arcsin_le_pi_div_two s⟩

theorem toDeg_pi_div_two : toDeg (Real.pi / 2) = 90 := by
  unfold toDeg
  field_simp
  ring

/-! ### The sidereal clock in closed form -/

theorem lst_closed_form (date : JSDate) (coords : Coordinates) :
    getLocalSiderealTime date coords =
      18.697374558 + 24.06570982441908 * (getJulianDay date - 2451545.0) +
        coords.longitude / 15 := by
  simp only [getLocalSiderealTime, toDeg_toRad]
  ring

/-! ### The Kepler fixed-point iteration -/

theorem keplerIterFrom_succ (M e E0 : ℝ) (n : ℕ) :
    keplerIterFrom M e E0 (n + 1) = M + e * Real.sin (keplerIterFrom M e E0 n) :=
  rfl

theorem keplerIterFrom_eq_iterate (M e E0 : ℝ) (n : ℕ) :
    keplerIterFrom M e E0 n = (keplerMap M e)^[n] E0 := by
  induction n with
  | zero => rfl
  | succ n ih =>
    rw [keplerIterFrom_succ, ih, Function.iterate_succ_apply', keplerMap]

theorem keplerIterFrom_shift (M e E0 : ℝ) (n : ℕ) :
    keplerIterFrom M e (M + e * Real.sin E0) n = keplerIterFrom M e E0 (n + 1) := by
  induction n with
  | zero => rfl
  | succ n ih =>
    rw [keplerIterFrom_succ M e (M + e * Real.sin E0) n, ih,
      ← keplerIterFrom_succ M e E0 (n + 1)]

/-- The fifth and sixth Kepler iterates from `M = π/2` differ for every
eccentricity in `(0, 1]`: the sequence of offsets from `π/2` is the
strictly alternating fixed-point iteration of `b ↦ e * cos b`. -/
theorem kepler_iter_six_ne_five {e : ℝ} (he : 0 < e) (he1 : e ≤ 1) :
    keplerIterFrom (Real.pi / 2) e (Real.pi / 2) 6 ≠
      keplerIterFrom (Real.pi / 2) e (Real.pi / 2) 5 := by
  have hπ := Real.pi_gt_three
  have hsin : ∀ b : ℝ, Real.sin (Real.pi / 2 + b) = Real.cos b := by
    intro b
    rw [Real.sin_add]
    simp
  have hmem : ∀ x : ℝ, 0 ≤ x → x ≤ e → 0 < e * Real.cos x ∧ e * Real.cos x ≤ e := by
    intro x hx0 hxe
    have hcos : 0 < Real.cos x :=
      Real.cos_pos_of_mem_Ioo ⟨by linarith, by linarith⟩
    exact ⟨mul_pos he hcos, by nlinarith [Real.cos_le_one x]⟩
  have hkey : ∀ x y : ℝ, 0 ≤ x → y ≤ e → x < y → e * Real.cos y < e * Real.cos x := by
    intro x y hx0 hye hxy
    have := Real.cos_lt_cos_of_nonneg_of_le_pi hx0 (by linarith) hxy
    exact mul_lt_mul_of_pos_left this he
  set c1 := e with hc1
  set c2 := e * Real.cos c1 with hc2
  set c3 := e * Real.cos c2 with hc3
  set c4 := e * Real.cos c3 with hc4
  set c5 := e * Real.cos c4 with hc5
  have h2m := hmem c1 (le_of_lt he) le_rfl
  have h3m := hmem c2 (le_of_lt h2m.1) h2m.2
  have h4m := hmem c3 (le_of_lt h3m.1) h3m.2
  have h5m := hmem c4 (le_of_lt h4m.1) h4m.2
  have h21 : c2 < c1 := by
    have := hkey 0 c1 le_rfl le_rfl he
    simpa using this
  have h23 : c2 < c3 := by
    have := hkey c2 c1 (le_of_lt h2m.1) le_rfl h21
    rw [← hc2, ← hc3] at this
    exact this
  have h43 : c4 < c3 := by
    have := hkey c2 c3 (le_of_lt h2m.1) h3m.2 h23
    rw [← hc3, ← hc4] at this
    exact this
  have h45 : c4 < c5 := by
    have := hkey c4 c3 (le_of_lt h4m.1) h3m.2 h43
    rw [← hc4, ← hc5] at this
    exact this
  have hfin : e * Real.cos c5 < e * Real.cos c4 :=
    hkey c4 c5 (le_of_lt h4m.1) h5m.2 h45
  have h1 : keplerIterFrom (Real.pi / 2) e (Real.pi / 2) 1 = Real.pi / 2 + c1 := by
    rw [keplerIterFrom_succ]
    show Real.pi / 2 + e * Real.sin (Real.pi / 2) = _
    rw [Real.sin_pi_div_two]
    ring
  have h2 : keplerIterFrom (Real.pi / 2) e (Real.pi / 2) 2 = Real.pi / 2 + c2 := by
    rw [keplerIterFrom_succ, h1, hsin, hc2]
  have h3 : keplerIterFrom (Real.pi / 2) e (Real.pi / 2) 3 = Real.pi / 2 + c3 := by
    rw [keplerIterFrom_succ, h2, hsin, hc3]
  have h4 : keplerIterFrom (Real.pi / 2) e (Real.pi / 2) 4 = Real.pi / 2 + c4 := by
    rw [keplerIterFrom_succ, h3, hsin, hc4]
  have h5 : keplerIterFrom (Real.pi / 2) e (Real.pi / 2) 5 = Real.pi / 2 + c5 := by
    rw [keplerIterFrom_succ, h4, hsin, hc5]
  have h6 : keplerIterFrom (Real.pi / 2) e (Real.pi / 2) 6 =
      Real.pi / 2 + e * Real.cos c5 := by
    rw [keplerIterFrom_succ, h5, hsin]
  rw [h5, h6]
  intro hcontra
  have : e * Real.cos c5 = c5 := by linarith [add_left_cancel hcontra]
  rw [hc5] at this
  linarith [hfin, this]

/-! ### Evaluations of jsMod and the raDecToAzAlt helpers at the
concrete inputs used by witnesses and counterexamples -/

theorem jsMod_450_360 : jsMod 450 360 = 90 := by
  unfold jsMod truncate
  have h : (450 : ℝ) / 360 = 1.25 := by norm_num
  rw [h, if_pos (by norm_num : (0:ℝ) ≤ 1.25)]
  have hf : ⌊(1.25 : ℝ)⌋ = 1 := Int.floor_eq_iff.mpr (by norm_num)
  rw [hf]
  norm_num

theorem hourAngle_at_six : hourAngle 0 6 = Real.pi / 2 := by
  unfold hourAngle
  rw [show ((6:ℝ) - 0) * 15 = 90 by norm_num, toRad_ninety]

theorem hourAngle_at_zero : hourAngle 0 0 = 0 := by
  unfold hourAngle
  rw [show ((0:ℝ) - 0) * 15 = 0 by norm_num, toRad_zero]

theorem sinHA_at_six : sinHA 0 6 = 1 := by
  unfold sinHA
  rw [hourAngle_at_six, Real.sin_pi_div_two]

theorem sinHA_at_zero : sinHA 0 0 = 0 := by
  unfold sinHA
  rw [hourAngle_at_zero, Real.sin_zero]

theorem sinAltOf_0060 : sinAltOf 0 0 6 0 = 0 := by
  unfold sinAltOf
  rw [hourAngle_at_six, toRad_zero]
  simp [Real.cos_pi_div_two]

theorem altitudeOf_0060 : altitudeOf 0 0 6 0 = 0 := by
  unfold altitudeOf
  rw [sinAltOf_0060, Real.arcsin_zero, toDeg_zero]

theorem azDenom_0060 : azDenom 0 0 6 0 = 1 := by
  unfold azDenom
  rw [altitudeOf_0060, toRad_zero, Real.cos_zero]
  ring

theorem azCosArg_0060 : azCosArg 0 0 6 0 = 0 := by
  unfold azCosArg
  rw [azDenom_0060, sinAltOf_0060, toRad_zero, Real.sin_zero]
  ring

theorem sinAltOf_0000 : sinAltOf 0 0 0 0 = 1 := by
  unfold sinAltOf
  rw [hourAngle_at_zero, toRad_zero]
  simp

theorem altitudeOf_0000 : altitudeOf 0 0 0 0 = 90 := by
  unfold altitudeOf
  rw [sinAltOf_0000, Real.arcsin_one, toDeg_pi_div_two]

theorem azDenom_0000 : azDenom 0 0 0 0 = 0 := by
  unfold azDenom
  rw [altitudeOf_0000, toRad_ninety, Real.cos_pi_div_two]
  ring

theorem sinAltOf_pole : sinAltOf 0 90 6 0 = 0 := by
  unfold sinAltOf
  rw [hourAngle_at_six, toRad_zero, toRad_ninety]
  simp [Real.cos_pi_div_two]

theorem altitudeOf_pole : altitudeOf 0 90 6 0 = 0 := by
  unfold altitudeOf
  rw [sinAltOf_pole, Real.arcsin_zero, toDeg_zero]

theorem azDenom_pole : azDenom 0 90 6 0 = 1 := by
  unfold azDenom
  rw [altitudeOf_pole, toRad_zero, Real.cos_zero]
  ring

theorem azCosArg_pole : azCosArg 0 90 6 0 = 1 := by
  unfold azCosArg
  rw [azDenom_pole, sinAltOf_pole, toRad_zero, toRad_ninety]
  simp [Real.sin_pi_div_two]

theorem rawAcosAz_pole : rawAcosAz 0 90 6 0 = 0 := by
  unfold rawAcosAz
  rw [azCosArg_pole, Real.arccos_one, toDeg_zero]

theorem azimuth_pole : (raDecToAzAlt 0 90 6 0).azimuth = 360 := by
  unfold raDecToAzAlt
  rw [if_pos (by rw [sinHA_at_six]; norm_num)]
  show 360 - rawAcosAz 0 90 6 0 = 360
  rw [rawAcosAz_pole]
  ring

/-! ### Range facts about the horizontal transform -/

/-- The altitude sine is a dot product of two unit vectors, hence lies
in `[-1, 1]` for every input. -/
theorem abs_sinAltOf_le_one (ra dec lst lat : ℝ) : |sinAltOf ra dec lst lat| ≤ 1 := by
  unfold sinAltOf
  set s1 := Real.sin (toRad dec)
  set c1 := Real.cos (toRad dec)
  set s2 := Real.sin (toRad lat)
  set c2 := Real.cos (toRad lat)
  set ch := Real.cos (hourAngle ra lst)
  have h1 : s1 ^ 2 + c1 ^ 2 = 1 := Real.sin_sq_add_cos_sq _
  have h2 : s2 ^ 2 + c2 ^ 2 = 1 := Real.sin_sq_add_cos_sq _
  have hch : ch ^ 2 ≤ 1 := Real.cos_sq_le_one _
  have hident : (s1 * s2 + c1 * c2 * ch) ^ 2 + (s1 * c2 * ch - c1 * s2) ^ 2 =
      s2 ^ 2 + c2 ^ 2 * ch ^ 2 := by
    linear_combination (s2 ^ 2 + c2 ^ 2 * ch ^ 2) * h1
  have h3 : c2 ^ 2 * ch ^ 2 ≤ c2 ^ 2 := by
    nlinarith [mul_nonneg (sq_nonneg c2) (sub_nonneg.mpr hch)]
  have hsq : (s1 * s2 + c1 * c2 * ch) ^ 2 ≤ 1 := by
    linarith [sq_nonneg (s1 * c2 * ch - c1 * s2)]
  exact (sq_le_one_iff_abs_le_one _).mp hsq

theorem altitudeOf_mem (ra dec lst lat : ℝ) :
    -90 ≤ altitudeOf ra dec lst lat ∧ altitudeOf ra dec lst lat ≤ 90 :=
  toDeg_mem_of_abs_le (arcsin_abs_le _)

theorem rawAcosAz_mem (ra dec lst lat : ℝ) :
    0 ≤ rawAcosAz ra dec lst lat ∧ rawAcosAz ra dec lst lat ≤ 180 := by
  unfold rawAcosAz
  constructor
  · exact toDeg_nonneg (Real.arccos_nonneg _)
  · apply toDeg_le
    have h : Real.pi / 2 * ((180 : ℝ) / 90) = Real.pi := by ring
    rw [h]
    exact Real.arccos_le_pi _

theorem azimuth_mem (ra dec lst lat : ℝ) :
    0 ≤ (raDecToAzAlt ra dec lst lat).azimuth ∧
      (raDecToAzAlt ra dec lst lat).azimuth ≤ 360 := by
  obtain ⟨h0, h180⟩ := rawAcosAz_mem ra dec lst lat
  unfold raDecToAzAlt
  split
  · constructor
    · show (0:ℝ) ≤ 360 - rawAcosAz ra dec lst lat
      linarith
    · show (360:ℝ) - rawAcosAz ra dec lst lat ≤ 360
      linarith
  · exact ⟨h0, by linarith⟩

theorem altitude_raDecToAzAlt (ra dec lst lat : ℝ) :
    (raDecToAzAlt ra dec lst lat).altitude = altitudeOf ra dec lst lat := by
  unfold raDecToAzAlt
  split <;> rfl

theorem visible_iff_altitude (obj : CelestialBody) (date : JSDate)
    (coords : Coordinates) (screenSize : Size) (rotation : ℝ) :
    (calculateObjectPosition obj date coords screenSize rotation).visible = true ↔
      0 ≤ (calculateObjectPosition obj date coords screenSize rotation).altitude := by
  show decide _ = true ↔ _
  rw [decide_eq_true_iff]
  exact ge_iff_le

/-! ### Evaluations at the concrete date used against the Earth Kepler
iteration count (day count `d = 92.47089 / 0.98560028`, at which Earth's
mean anomaly is exactly `π/2`) -/

theorem daysSinceJ2000_kdate :
    daysSinceJ2000 ⟨(10957.5 + 92.47089 / 0.98560028) * 86400000, 0⟩ =
      92.47089 / 0.98560028 := by
  unfold daysSinceJ2000 getJulianDay
  rw [mul_div_cancel_right₀ _ (by norm_num : (86400000 : ℝ) ≠ 0)]
  norm_num

theorem earthMeanAnomaly_kdate :
    earthMeanAnomaly ⟨(10957.5 + 92.47089 / 0.98560028) * 86400000, 0⟩ =
      Real.pi / 2 := by
  unfold earthMeanAnomaly
  rw [daysSinceJ2000_kdate,
    mul_div_cancel₀ _ (by norm_num : (0.98560028 : ℝ) ≠ 0),
    show (357.52911 : ℝ) + 92.47089 = 450 by norm_num,
    jsMod_450_360, toRad_ninety]

theorem earthEccentricity_kdate_pos :
    0 < earthEccentricity ⟨(10957.5 + 92.47089 / 0.98560028) * 86400000, 0⟩ := by
  unfold earthEccentricity
  rw [daysSinceJ2000_kdate]
  norm_num

theorem earthEccentricity_kdate_le_one :
    earthEccentricity ⟨(10957.5 + 92.47089 / 0.98560028) * 86400000, 0⟩ ≤ 1 := by
  unfold earthEccentricity
  rw [daysSinceJ2000_kdate]
  norm_num

/-! ### Range facts about the three ephemerides -/

theorem sun_ra_mem (date : JSDate) :
    0 ≤ (getSunPosition date).ra ∧ (getSunPosition date).ra < 24 :=
  fixRa_mem (atan2_mem_Ioc _ _).1 (atan2_mem_Ioc _ _).2

theorem sun_dec_mem (date : JSDate) :
    -90 ≤ (getSunPosition date).dec ∧ (getSunPosition date).dec ≤ 90 :=
  toDeg_mem_of_abs_le (arcsin_abs_le _)

theorem moon_ra_mem (date : JSDate) :
    0 ≤ (getMoonPosition date).ra ∧ (getMoonPosition date).ra < 24 :=
  fixRa_mem (atan2_mem_Ioc _ _).1 (atan2_mem_Ioc _ _).2

theorem moon_dec_mem (date : JSDate) :
    -90 ≤ (getMoonPosition date).dec ∧ (getMoonPosition date).dec ≤ 90 :=
  toDeg_mem_of_abs_le (arcsin_abs_le _)

theorem planet_ra_mem (p : Planet) (date : JSDate) :
    0 ≤ (getPlanetPosition p date).ra ∧ (getPlanetPosition p date).ra < 24 :=
  fixRa_mem (atan2_mem_Ioc _ _).1 (atan2_mem_Ioc _ _).2

theorem planet_dec_mem (p : Planet) (date : JSDate) :
    -90 ≤ (getPlanetPosition p date).dec ∧ (getPlanetPosition p date).dec ≤ 90 :=
  toDeg_mem_of_abs_le (abs_atan2_le_pi_div_two (Real.sqrt_nonneg _))

/-! ### Factorization of every ephemeris through the day count
`JD - 2451545.0` -/

theorem lst_factors (date : JSDate) (coords : Coordinates) :
    getLocalSiderealTime date coords =
      lstFromDays (getJulianDay date - 2451545.0) coords.longitude := rfl

theorem sun_factors (date : JSDate) :
    getSunPosition date = sunFromDays (getJulianDay date - 2451545.0) := rfl

theorem moon_factors (date : JSDate) :
    getMoonPosition date = moonFromDays (getJulianDay date - 2451545.0) := rfl

theorem planet_factors (p : Planet) (date : JSDate) :
    getPlanetPosition p date = planetFromDays p (getJulianDay date - 2451545.0) := rfl

/-! ### Screen projection -/

theorem sqrt_circle (cx cy r θ : ℝ) (hr : 0 ≤ r) :
    Real.sqrt ((cx + r * Real.cos θ - cx) ^ 2 + (cy + r * Real.sin θ - cy) ^ 2) = r := by
  have h : (cx + r * Real.cos θ - cx) ^ 2 + (cy + r * Real.sin θ - cy) ^ 2 = r ^ 2 := by
    linear_combination r ^ 2 * Real.sin_sq_add_cos_sq θ
  rw [h, Real.sqrt_sq hr]

theorem projectToScreen_zenith (az : ℝ) (size : Size) (rot : ℝ) :
    projectToScreen az 90 size rot = ⟨size.width / 2, size.height / 2⟩ := by
  unfold projectToScreen
  have h : (1 : ℝ) - 90 / 90 = 0 := by norm_num
  rw [Pt.mk.injEq]
  constructor
  · show size.width / 2 + (1 - 90 / 90) * (min (size.width / 2) (size.height / 2) * 0.95) *
      Real.cos (toRad (az - 90 + rot)) = size.width / 2
    rw [h]
    ring
  · show size.height / 2 + (1 - 90 / 90) * (min (size.width / 2) (size.height / 2) * 0.95) *
      Real.sin (toRad (az - 90 + rot)) = size.height / 2
    rw [h]
    ring

theorem projectToScreen_horizon (az : ℝ) (size : Size) (rot : ℝ)
    (hw : 0 ≤ size.width) (hh : 0 ≤ size.height) :
    distPt (projectToScreen az 0 size rot) ⟨size.width / 2, size.height / 2⟩ =
      0.95 * min size.width size.height / 2 := by
  have hmin : min (size.width / 2) (size.height / 2) =
      min size.width size.height / 2 :=
    min_div_div_right (by norm_num) _ _
  have hr : 0 ≤ (1 - (0:ℝ) / 90) * (min (size.width / 2) (size.height / 2) * 0.95) := by
    have h0 : 0 ≤ min (size.width / 2) (size.height / 2) :=
      le_min (by linarith) (by linarith)
    nlinarith
  unfold distPt projectToScreen
  show Real.sqrt ((size.width / 2 + _ * Real.cos _ - size.width / 2) ^ 2 +
    (size.height / 2 + _ * Real.sin _ - size.height / 2) ^ 2) = _
  rw [sqrt_circle _ _ _ _ hr, hmin]
  ring

/-! ## Claim theorems -/

/-- Claim C1, counterexample: one day after the reference instant
(`getTime = 946814400000` ms, zero UTC offset, longitude 0) the value
returned by `getLocalSiderealTime` is `42.763...`, which does not lie in
`[0, 24)`: the result is not wrapped before being returned. -/
theorem C1_counterexample :
    ¬ (getLocalSiderealTime ⟨946814400000, 0⟩ ⟨0, 0⟩ < 24) := by
  rw [lst_closed_form]
  have h : getJulianDay ⟨946814400000, 0⟩ = 2451546 := by
    unfold getJulianDay
    norm_num
  rw [h]
  norm_num

/-- Claim C1 (amended): for every timestamp and observer longitude,
`getLocalSiderealTime` returns exactly the linear GMST formula plus the
longitude time-offset, `18.697374558 + 24.06570982441908 * (JD -
2451545.0) + longitude / 15`, with no normalization into `[0, 24)`; the
conversion to radians and back cancels, so the value is returned
unwrapped. -/
theorem C1_lst_unwrapped_linear (date : JSDate) (coords : Coordinates) :
    getLocalSiderealTime date coords =
      18.697374558 + 24.06570982441908 * (getJulianDay date - 2451545.0) +
        coords.longitude / 15 :=
  lst_closed_form date coords

/-- Claim C2, counterexample: at the observer's zenith (`ra = dec = lst
= lat = 0`) the altitude is exactly 90 and the azimuth denominator
`cos(lat) * cos(alt)` is exactly zero, so the unguarded division makes
the JavaScript computation produce a NaN azimuth (`none` in the
partiality-tracking model): the division is not guarded. -/
theorem C2_counterexample : raDecToAzAltChecked 0 0 0 0 = none := by
  unfold raDecToAzAltChecked
  rw [if_pos (by rw [sinAltOf_0000]; norm_num),
    if_neg (by simp [azDenom_0000])]

/-- Claim C2 (amended): the division in the azimuth formula of
`raDecToAzAlt` is not guarded; at the zenith/nadir degeneracy the
denominator is exactly zero and NaN is produced. On every input where
the denominator is nonzero and the `acos` argument lies in `[-1, 1]`
(the `asin` argument always does), the computation is real-valued and
agrees with the total real-number model. -/
theorem C2_azimuth_unguarded (ra dec lst lat : ℝ)
    (hden : azDenom ra dec lst lat ≠ 0)
    (harg : |azCosArg ra dec lst lat| ≤ 1) :
    raDecToAzAltChecked ra dec lst lat = some (raDecToAzAlt ra dec lst lat) := by
  unfold raDecToAzAltChecked
  rw [if_pos (abs_sinAltOf_le_one ra dec lst lat), if_pos hden, if_pos harg]

/-- Witness for C2: the input `(0, 0, 6, 0)` satisfies both hypotheses
and the checked computation returns the real value. -/
theorem C2_witness :
    azDenom 0 0 6 0 ≠ 0 ∧ |azCosArg 0 0 6 0| ≤ 1 ∧
      raDecToAzAltChecked 0 0 6 0 = some (raDecToAzAlt 0 0 6 0) := by
  have h1 : azDenom 0 0 6 0 ≠ 0 := by
    rw [azDenom_0060]
    norm_num
  have h2 : |azCosArg 0 0 6 0| ≤ 1 := by
    rw [azCosArg_0060]
    norm_num
  exact ⟨h1, h2, C2_azimuth_unguarded 0 0 6 0 h1 h2⟩

/-- Claim C3, counterexample: at the date with day count
`d = 92.47089 / 0.98560028` (at which Earth's mean anomaly is exactly
`π/2`), the Earth eccentric anomaly computed by `getPlanetPosition` is
not the 5-fold application of `E ↦ M + e sin E` starting from `M`: the
initial assignment already applies the map once, so the code computes
the 6-fold application, which differs from the 5-fold one. -/
theorem C3_counterexample :
    earthEccentricAnomaly ⟨(10957.5 + 92.47089 / 0.98560028) * 86400000, 0⟩ ≠
      keplerIterFrom
        (earthMeanAnomaly ⟨(10957.5 + 92.47089 / 0.98560028) * 86400000, 0⟩)
        (earthEccentricity ⟨(10957.5 + 92.47089 / 0.98560028) * 86400000, 0⟩)
        (earthMeanAnomaly ⟨(10957.5 + 92.47089 / 0.98560028) * 86400000, 0⟩) 5 := by
  unfold earthEccentricAnomaly
  rw [keplerIterFrom_shift, earthMeanAnomaly_kdate]
  exact kepler_iter_six_ne_five earthEccentricity_kdate_pos
    earthEccentricity_kdate_le_one

/-- Claim C3 (amended): in `getPlanetPosition` the planet's eccentric
anomaly is the 6-fold application of the Kepler map `E ↦ M + e sin E`
starting from `E = M` (six loop iterations), and Earth's eccentric
anomaly is also the 6-fold application starting from `E = M_earth` (one
initial application plus five loop iterations), not the 5-fold one;
both values are exactly the ones used downstream by the position
computation. -/
theorem C3_kepler_iteration_counts :
    (∀ (p : Planet) (date : JSDate),
      planetEccentricAnomaly p date =
        (keplerMap (planetMeanAnomaly p date) (planetEccentricity p date))^[6]
          (planetMeanAnomaly p date)) ∧
    (∀ date : JSDate,
      earthEccentricAnomaly date =
        (keplerMap (earthMeanAnomaly date) (earthEccentricity date))^[6]
          (earthMeanAnomaly date)) ∧
    (∀ (p : Planet) (date : JSDate),
      getPlanetPosition p date =
        planetPositionFrom p date (planetEccentricAnomaly p date)
          (earthEccentricAnomaly date)) := by
  refine ⟨fun p date => keplerIterFrom_eq_iterate _ _ _ 6,
    fun date => ?_, fun p date => rfl⟩
  unfold earthEccentricAnomaly
  rw [keplerIterFrom_shift, keplerIterFrom_eq_iterate]

/-- Claim C4: for every date and every orbital element set, each of
`getSunPosition`, `getMoonPosition` and `getPlanetPosition` returns a
right ascension in `[0, 24)` and a declination in `[-90, 90]`. -/
theorem C4_ephemeris_ranges (date : JSDate) (p : Planet) :
    (0 ≤ (getSunPosition date).ra ∧ (getSunPosition date).ra < 24) ∧
    (-90 ≤ (getSunPosition date).dec ∧ (getSunPosition date).dec ≤ 90) ∧
    (0 ≤ (getMoonPosition date).ra ∧ (getMoonPosition date).ra < 24) ∧
    (-90 ≤ (getMoonPosition date).dec ∧ (getMoonPosition date).dec ≤ 90) ∧
    (0 ≤ (getPlanetPosition p date).ra ∧ (getPlanetPosition p date).ra < 24) ∧
    (-90 ≤ (getPlanetPosition p date).dec ∧ (getPlanetPosition p date).dec ≤ 90) :=
  ⟨sun_ra_mem date, sun_dec_mem date, moon_ra_mem date, moon_dec_mem date,
    planet_ra_mem p date, planet_dec_mem p date⟩

/-- Claim C5: the azimuth quadrant tie-break of `raDecToAzAlt` follows
the sine of the hour angle: if `sin(HA) > 0` the returned azimuth is
`360` minus the raw `acos` result, and if `sin(HA) ≤ 0` it is the raw
`acos` result directly. -/
theorem C5_azimuth_tiebreak (ra dec lst lat : ℝ) :
    (sinHA ra lst > 0 →
      (raDecToAzAlt ra dec lst lat).azimuth = 360 - rawAcosAz ra dec lst lat) ∧
    (sinHA ra lst ≤ 0 →
      (raDecToAzAlt ra dec lst lat).azimuth = rawAcosAz ra dec lst lat) := by
  constructor
  · intro h
    unfold raDecToAzAlt
    rw [if_pos h]
  · intro h
    unfold raDecToAzAlt
    rw [if_neg (not_lt.mpr h)]

/-- Witness for C5: at `(0, 0, 6, 0)` the hour-angle sine is `1 > 0` and
the azimuth is the corrected value; at `(0, 0, 0, 0)` it is `0 ≤ 0` and
the azimuth is the raw value. -/
theorem C5_witness :
    (sinHA 0 6 > 0 ∧
      (raDecToAzAlt 0 0 6 0).azimuth = 360 - rawAcosAz 0 0 6 0) ∧
    (sinHA 0 0 ≤ 0 ∧
      (raDecToAzAlt 0 0 0 0).azimuth = rawAcosAz 0 0 0 0) := by
  have h1 : sinHA 0 6 > 0 := by
    rw [sinHA_at_six]
    norm_num
  have h2 : sinHA 0 0 ≤ 0 := by
    rw [sinHA_at_zero]
  exact ⟨⟨h1, (C5_azimuth_tiebreak 0 0 6 0).1 h1⟩,
    ⟨h2, (C5_azimuth_tiebreak 0 0 0 0).2 h2⟩⟩

/-- Claim C6: for every viewport size, rotation and azimuth,
`projectToScreen` maps altitude 90 exactly to the viewport center, and
maps altitude 0 to a point at Euclidean distance
`0.95 * min(width, height) / 2` from the center. -/
theorem C6_projection_center_edge (az rot : ℝ) (size : Size)
    (hw : 0 ≤ size.width) (hh : 0 ≤ size.height) :
    projectToScreen az 90 size rot = ⟨size.width / 2, size.height / 2⟩ ∧
    distPt (projectToScreen az 0 size rot) ⟨size.width / 2, size.height / 2⟩ =
      0.95 * min size.width size.height / 2 :=
  ⟨projectToScreen_zenith az size rot, projectToScreen_horizon az size rot hw hh⟩

/-- Witness for C6: a 200 by 100 viewport with azimuth 30 and rotation
45; the zenith projects to the center `(100, 50)` and the horizon point
lands at distance `47.5 = 0.95 * 100 / 2` from it. -/
theorem C6_witness :
    (0 : ℝ) ≤ 200 ∧ (0 : ℝ) ≤ 100 ∧
    projectToScreen 30 90 ⟨200, 100⟩ 45 = ⟨(200 : ℝ) / 2, (100 : ℝ) / 2⟩ ∧
    distPt (projectToScreen 30 0 ⟨200, 100⟩ 45) ⟨(200 : ℝ) / 2, (100 : ℝ) / 2⟩ =
      0.95 * min (200 : ℝ) 100 / 2 := by
  have h := C6_projection_center_edge 30 45 ⟨200, 100⟩ (by norm_num) (by norm_num)
  exact ⟨by norm_num, by norm_num, h.1, h.2⟩

/-- Claim C7: `getJulianDay` computes exactly
`ms / 86400000 - utcOffsetMinutes / 1440 + 2440587.5`, and each of the
downstream formulas (sidereal clock, Sun, Moon, planet) is a function of
the date only through the day count `JD - 2451545.0`. -/
theorem C7_julian_day_epoch (date : JSDate) (coords : Coordinates) (p : Planet) :
    getJulianDay date =
      date.getTime / 86400000 - date.getTimezoneOffset / 1440 + 2440587.5 ∧
    getLocalSiderealTime date coords =
      lstFromDays (getJulianDay date - 2451545.0) coords.longitude ∧
    getSunPosition date = sunFromDays (getJulianDay date - 2451545.0) ∧
    getMoonPosition date = moonFromDays (getJulianDay date - 2451545.0) ∧
    getPlanetPosition p date = planetFromDays p (getJulianDay date - 2451545.0) :=
  ⟨rfl, lst_factors date coords, sun_factors date, moon_factors date,
    planet_factors p date⟩

/-- Claim C8: a body descriptor that is not a star, not a planet and
whose id is neither `sun` nor `moon` resolves to the fallback
`(RA = 0, Dec = 0)`, and `calculateObjectPosition` runs the whole
pipeline on those values (the result coincides with that of a star at
`(0, 0)`). -/
theorem C8_unknown_body_fallback (id : String) (date : JSDate)
    (coords : Coordinates) (screenSize : Size) (rotation : ℝ)
    (hsun : id ≠ "sun") (hmoon : id ≠ "moon") :
    resolveRaDec (.object id) date = ⟨0, 0⟩ ∧
    calculateObjectPosition (.object id) date coords screenSize rotation =
      calculateObjectPosition (.star 0 0) date coords screenSize rotation := by
  have hres : resolveRaDec (.object id) date = ⟨0, 0⟩ := by
    show (if id = "sun" then getSunPosition date
      else if id = "moon" then getMoonPosition date else ⟨0, 0⟩) = ⟨0, 0⟩
    rw [if_neg hsun, if_neg hmoon]
  refine ⟨hres, ?_⟩
  unfold calculateObjectPosition
  rw [hres]
  rfl

/-- Witness for C8: the id `comet` is neither `sun` nor `moon` and its
position is computed from the fallback coordinates. -/
theorem C8_witness :
    ("comet" ≠ "sun") ∧ ("comet" ≠ "moon") ∧
    resolveRaDec (.object "comet") ⟨0, 0⟩ = ⟨0, 0⟩ ∧
    calculateObjectPosition (.object "comet") ⟨0, 0⟩ ⟨0, 0⟩ ⟨100, 100⟩ 0 =
      calculateObjectPosition (.star 0 0) ⟨0, 0⟩ ⟨0, 0⟩ ⟨100, 100⟩ 0 := by
  have h := C8_unknown_body_fallback "comet" ⟨0, 0⟩ ⟨0, 0⟩ ⟨100, 100⟩ 0
    (by decide) (by decide)
  exact ⟨by decide, by decide, h.1, h.2⟩

/-- Claim C9, counterexample: at `(ra, dec, lst, lat) = (0, 90, 6, 0)`
(the north celestial pole, hour angle 6h) the azimuth expression is
defined — the denominator is 1 and the `acos` argument is 1 — yet the
returned azimuth is exactly `360`, which is not in `[0, 360)`. -/
theorem C9_counterexample :
    azDenom 0 90 6 0 ≠ 0 ∧ |azCosArg 0 90 6 0| ≤ 1 ∧
      ¬ ((raDecToAzAlt 0 90 6 0).azimuth < 360) := by
  refine ⟨?_, ?_, ?_⟩
  · rw [azDenom_pole]
    norm_num
  · rw [azCosArg_pole]
    norm_num
  · rw [azimuth_pole]
    exact lt_irrefl 360

/-- Claim C9 (amended): on every input on which the azimuth expression
is defined, the returned azimuth lies in the closed interval `[0, 360]`
(the endpoint 360 is attained) and the altitude lies in `[-90, 90]`;
and `calculateObjectPosition` reports `visible = true` exactly when the
returned altitude is at least 0. -/
theorem C9_horizon_ranges_visibility (ra dec lst lat : ℝ)
    (obj : CelestialBody) (date : JSDate) (coords : Coordinates)
    (screenSize : Size) (rotation : ℝ)
    (hden : azDenom ra dec lst lat ≠ 0)
    (harg : |azCosArg ra dec lst lat| ≤ 1) :
    (0 ≤ (raDecToAzAlt ra dec lst lat).azimuth ∧
      (raDecToAzAlt ra dec lst lat).azimuth ≤ 360) ∧
    (-90 ≤ (raDecToAzAlt ra dec lst lat).altitude ∧
      (raDecToAzAlt ra dec lst lat).altitude ≤ 90) ∧
    ((calculateObjectPosition obj date coords screenSize rotation).visible = true ↔
      0 ≤ (calculateObjectPosition obj date coords screenSize rotation).altitude) := by
  refine ⟨azimuth_mem ra dec lst lat, ?_,
    visible_iff_altitude obj date coords screenSize rotation⟩
  rw [altitude_raDecToAzAlt]
  exact altitudeOf_mem ra dec lst lat

/-- Witness for C9: the input `(0, 0, 6, 0)` satisfies both definedness
hypotheses, and the stated ranges and visibility equivalence hold
there. -/
theorem C9_witness :
    azDenom 0 0 6 0 ≠ 0 ∧ |azCosArg 0 0 6 0| ≤ 1 ∧
    ((0 ≤ (raDecToAzAlt 0 0 6 0).azimuth ∧
      (raDecToAzAlt 0 0 6 0).azimuth ≤ 360) ∧
    (-90 ≤ (raDecToAzAlt 0 0 6 0).altitude ∧
      (raDecToAzAlt 0 0 6 0).altitude ≤ 90) ∧
    ((calculateObjectPosition (.star 0 0) ⟨0, 0⟩ ⟨0, 0⟩ ⟨100, 100⟩ 0).visible = true ↔
      0 ≤ (calculateObjectPosition (.star 0 0) ⟨0, 0⟩ ⟨0, 0⟩ ⟨100, 100⟩ 0).altitude)) := by
  have h1 : azDenom 0 0 6 0 ≠ 0 := by
    rw [azDenom_0060]
    norm_num
  have h2 : |azCosArg 0 0 6 0| ≤ 1 := by
    rw [azCosArg_0060]
    norm_num
  exact ⟨h1, h2,
    C9_horizon_ranges_visibility 0 0 6 0 (.star 0 0) ⟨0, 0⟩ ⟨0, 0⟩ ⟨100, 100⟩ 0 h1 h2⟩

/-- Claim C10: two calls to `calculateObjectPosition` with the same
body, date and observer coordinates but different screen sizes and/or
rotations return identical azimuth, altitude and visible fields: the
viewport only influences `x` and `y`. -/
theorem C10_screen_independent_azalt (obj : CelestialBody) (date : JSDate)
    (coords : Coordinates) (s1 s2 : Size) (r1 r2 : ℝ) :
    (calculateObjectPosition obj date coords s1 r1).azimuth =
      (calculateObjectPosition obj date coords s2 r2).azimuth ∧
    (calculateObjectPosition obj date coords s1 r1).altitude =
      (calculateObjectPosition obj date coords s2 r2).altitude ∧
    (calculateObjectPosition obj date coords s1 r1).visible =
      (calculateObjectPosition obj date coords s2 r2).visible :=
  ⟨rfl, rfl, rfl⟩

end

end Astro
